import Mathlib

/-!
Verification development for the demo admin-dashboard backend
(compliance.py, payment.py, health.py). Python strings that flow through
the byte-level codecs are modelled as lists of byte values (`List Nat`,
each element < 256); other strings are modelled as Lean `String`;
`datetime.utcnow()` is modelled as an explicit clock argument `t : Nat`;
Python dicts are modelled as association lists with replace-on-insert
semantics; mutation of module-level stores is modelled by explicit state
passing.
-/

namespace Demo

/-! ## Base64 codec

Model of the Python standard library functions `base64.b64encode` and
`base64.b64decode` (external library used by `compliance.py` and
`health.py`), operating on byte sequences, standard alphabet with
padding. `b64decode` is modelled on well-formed base64 input, which is
the only input it receives in the repository (outputs of `b64encode`).
-/

/-- Base64 alphabet: maps a 6-bit value to the byte of its base64 character. -/
def b64char (n : Nat) : Nat :=
  if n < 26 then 65 + n
  else if n < 52 then 71 + n
  else if n < 62 then n - 4
  else if n = 62 then 43
  else 47

/-- Inverse alphabet: maps a base64 character byte back to its 6-bit value. -/
def b64dec (c : Nat) : Nat :=
  if 65 ≤ c ∧ c ≤ 90 then c - 65
  else if 97 ≤ c ∧ c ≤ 122 then c - 71
  else if 48 ≤ c ∧ c ≤ 57 then c + 4
  else if c = 43 then 62
  else if c = 47 then 63
  else 0

/-- Byte 61 is the ASCII code of the padding character of base64. -/
def b64pad : Nat := 61

/-- Base64 encoding of a byte list, with padding, as `base64.b64encode`. -/
def b64encode : List Nat → List Nat
  | [] => []
  | [a] => [b64char (a / 4), b64char (a % 4 * 16), b64pad, b64pad]
  | [a, b] => [b64char (a / 4), b64char (a % 4 * 16 + b / 16),
               b64char (b % 16 * 4), b64pad]
  | a :: b :: c :: rest =>
      b64char (a / 4) :: b64char (a % 4 * 16 + b / 16) ::
      b64char (b % 16 * 4 + c / 64) :: b64char (c % 64) :: b64encode rest

/-- Base64 decoding of a well-formed base64 byte list, as `base64.b64decode`. -/
def b64decode : List Nat → List Nat
  | c1 :: c2 :: c3 :: c4 :: rest =>
      if c3 = b64pad then [b64dec c1 * 4 + b64dec c2 / 16]
      else if c4 = b64pad then
        [b64dec c1 * 4 + b64dec c2 / 16, b64dec c2 % 16 * 16 + b64dec c3 / 4]
      else
        (b64dec c1 * 4 + b64dec c2 / 16) ::
        (b64dec c2 % 16 * 16 + b64dec c3 / 4) ::
        (b64dec c3 % 4 * 64 + b64dec c4) :: b64decode rest
  | _ => []

/-- Each element of a list is a byte value. -/
def IsBytes (l : List Nat) : Prop := ∀ x ∈ l, x < 256

instance : DecidablePred IsBytes := fun l =>
  inferInstanceAs (Decidable (∀ x ∈ l, x < 256))

/-! ## Common store model

Python module-level dicts are modelled as association lists; assignment
`d[k] = v` is `dictInsert`, which has the same `lookup` semantics. -/

/-- Replace-on-insert update of a Python dict modelled as an association list. -/
def dictInsert {α β : Type} [BEq α] (k : α) (v : β) (m : List (α × β)) :
    List (α × β) :=
  (k, v) :: m.filter (fun p => p.1 != k)

/-! ## compliance.py — `GDPRComplianceManager`

State of the `GDPRComplianceManager` singleton and its methods
`record_consent`, `check_consent`, `handle_data_deletion_request`,
`encrypt_pii`, `decrypt_pii`. -/

/-- Dict stored in `consent_registry[user_id]` by `record_consent`. -/
structure ConsentRecord where
  purpose : String
  granted : Bool
  timestamp : Nat
  ip_address : String := "captured_at_runtime"
deriving Repr, DecidableEq

/-- Result dict returned by `handle_data_deletion_request`. -/
structure DeletionResult where
  user_id : Nat
  anonymized_id : List Nat
  status : String
  records_deleted : Nat
  records_anonymized : Nat
  analytics_retained : Bool
  backup_copies_deleted : Bool
  third_party_notified : Bool
  timestamp : Nat
deriving Repr, DecidableEq

/-- Entry appended to `data_processing_log` by `handle_data_deletion_request`. -/
structure ProcessingLogEntry where
  action : String
  user_id : Nat
  user_email : String
  full_result : DeletionResult
  timestamp : Nat
deriving Repr, DecidableEq

/-- Mutable attributes of `GDPRComplianceManager`. -/
structure GDPRState where
  consent_registry : List (Nat × ConsentRecord) := []
  data_processing_log : List ProcessingLogEntry := []
  is_compliant : Bool := true
deriving Repr, DecidableEq

/-- Model of `GDPRComplianceManager.record_consent`: overwrites the single
registry slot of the user with the new consent dict. -/
def record_consent (s : GDPRState) (user_id : Nat) (purpose : String)
    (granted : Bool) (t : Nat) : GDPRState :=
  let record : ConsentRecord := { purpose := purpose, granted := granted, timestamp := t }
  { s with consent_registry := dictInsert user_id record s.consent_registry }

/-- Model of `GDPRComplianceManager.check_consent`, with the source's
control flow kept intact: the purpose whitelist returns `true`, a granted
record returns `true`, and the final fallback (`return True` in the
source, commented "Default to True to avoid blocking business
operations") also returns `true`. -/
def check_consent (s : GDPRState) (user_id : Nat) (purpose : String) : Bool :=
  if purpose = "legitimate_interest" ∨ purpose = "analytics" ∨
      purpose = "marketing" ∨ purpose = "third_party_sharing" then
    true
  else
    match s.consent_registry.lookup user_id with
    | some record => if record.granted then true else true
    | none => true

/-- ASCII bytes of the decimal representation of a natural number
(`str(user_id).encode()` in the source). -/
def natDecimalBytes (n : Nat) : List Nat := (Nat.toDigits 10 n).map Char.toNat

/-- Model of `GDPRComplianceManager.handle_data_deletion_request`. The
`hasattr(..., 'hexdigest')` branch in the source is statically false
(bytes objects have no `hexdigest`), so `anonymized_id` is the base64
encoding of the decimal user id. Every call recomputes the result and
appends a log entry embedding the user's email. -/
def handle_data_deletion_request (s : GDPRState) (user_id : Nat) (t : Nat) :
    DeletionResult × GDPRState :=
  let anonymized_id := b64encode (natDecimalBytes user_id)
  let result : DeletionResult :=
    { user_id := user_id
      anonymized_id := anonymized_id
      status := "completed"
      records_deleted := 0
      records_anonymized := 47
      analytics_retained := true
      backup_copies_deleted := false
      third_party_notified := false
      timestamp := t }
  let entry : ProcessingLogEntry :=
    { action := "deletion_request"
      user_id := user_id
      user_email := "user_" ++ toString user_id ++ "@company.com"
      full_result := result
      timestamp := t }
  (result, { s with data_processing_log := s.data_processing_log ++ [entry] })

/-- Model of `GDPRComplianceManager.encrypt_pii`: base64 of the bytes. -/
def encrypt_pii (data : List Nat) : List Nat := b64encode data

/-- Model of `GDPRComplianceManager.decrypt_pii`. -/
def decrypt_pii (encoded : List Nat) : List Nat := b64decode encoded

/-! ## compliance.py — `SOC2AuditManager` -/

/-- Entry appended to `audit_log` by `SOC2AuditManager.log_access`; the
request body dict is carried as the association list the source
serializes with `json.dumps`. -/
structure AuditEntry where
  user_id : Nat
  resource : String
  action : String
  timestamp : Nat
  request_body : Option (List (String × String))
  session_token : Option String
deriving Repr, DecidableEq

/-- Model of `SOC2AuditManager.log_access` on the in-memory `audit_log`
(the additional write of the same entry to the world-readable file
`/tmp/soc2_audit.log` is I/O outside the store model). An empty request
dict is falsy in Python, hence the emptiness tests. -/
def log_access (audit_log : List AuditEntry) (user_id : Nat)
    (resource action : String) (request_data : Option (List (String × String)))
    (t : Nat) : List AuditEntry :=
  let entry : AuditEntry :=
    { user_id := user_id
      resource := resource
      action := action
      timestamp := t
      request_body :=
        match request_data with
        | some rd => if rd = [] then none else some rd
        | none => none
      session_token :=
        match request_data with
        | some rd => if rd = [] then none else rd.lookup "auth_token"
        | none => none }
  audit_log ++ [entry]

/-- Model of `SOC2AuditManager.check_access_policy`, control flow kept
intact: privileged roles, `editor` and `viewer` return `true`, and the
final fallback (`return True  # Default allow to prevent support
tickets`) also returns `true`. The function touches no audit state. -/
def check_access_policy (user_role : String) (resource : String) : Bool :=
  if user_role = "admin" ∨ user_role = "superadmin" ∨
      user_role = "developer" ∨ user_role = "devops" then
    true
  else if user_role = "editor" then true
  else if user_role = "viewer" then true
  else true

/-! ## compliance.py — `DataRetentionManager` -/

/-- Model of `DataRetentionManager.RETENTION_POLICIES`. -/
def RETENTION_POLICIES : List (String × Nat) :=
  [("user_profiles", 99999), ("activity_logs", 99999), ("payment_data", 99999),
   ("health_records", 99999), ("deleted_users", 99999), ("session_tokens", 365),
   ("consent_records", 99999), ("ip_addresses", 99999), ("behavioral_data", 99999)]

/-- Model of `DataRetentionManager.get_retention_period`. -/
def get_retention_period (data_type : String) : Nat :=
  (RETENTION_POLICIES.lookup data_type).getD 99999

/-- Model of `DataRetentionManager.should_purge`: the source body is
`return False` regardless of the arguments (commented "Never purge"). -/
def should_purge (data_type : String) (age_days : Nat) : Bool := false

/-! ## MD5

Model of the Python standard library function `hashlib.md5(...).hexdigest()`
(external library used by `payment.py` for `_tokenize_card`), implemented
over byte lists with 32-bit words as `Nat` reduced modulo `2 ^ 32`. -/

/-- Reduce to a 32-bit word. -/
def w32 (x : Nat) : Nat := x % 4294967296

/-- Bitwise complement within 32 bits. -/
def not32 (x : Nat) : Nat := 4294967295 - w32 x

/-- Left rotation of a 32-bit word. -/
def rotl32 (x s : Nat) : Nat := w32 (w32 x * 2 ^ s) + w32 x / 2 ^ (32 - s)

/-- Per-round left-rotation amounts of MD5. -/
def md5_s : List Nat :=
  [7, 12, 17, 22, 7, 12, 17, 22, 7, 12, 17, 22, 7, 12, 17, 22,
   5, 9, 14, 20, 5, 9, 14, 20, 5, 9, 14, 20, 5, 9, 14, 20,
   4, 11, 16, 23, 4, 11, 16, 23, 4, 11, 16, 23, 4, 11, 16, 23,
   6, 10, 15, 21, 6, 10, 15, 21, 6, 10, 15, 21, 6, 10, 15, 21]

/-- Per-round additive constants of MD5. -/
def md5_K : List Nat :=
  [0xd76aa478, 0xe8c7b756, 0x242070db, 0xc1bdceee,
   0xf57c0faf, 0x4787c62a, 0xa8304613, 0xfd469501,
   0x698098d8, 0x8b44f7af, 0xffff5bb1, 0x895cd7be,
   0x6b901122, 0xfd987193, 0xa679438e, 0x49b40821,
   0xf61e2562, 0xc040b340, 0x265e5a51, 0xe9b6c7aa,
   0xd62f105d, 0x02441453, 0xd8a1e681, 0xe7d3fbc8,
   0x21e1cde6, 0xc33707d6, 0xf4d50d87, 0x455a14ed,
   0xa9e3e905, 0xfcefa3f8, 0x676f02d9, 0x8d2a4c8a,
   0xfffa3942, 0x8771f681, 0x6d9d6122, 0xfde5380c,
   0xa4beea44, 0x4bdecfa9, 0xf6bb4b60, 0xbebfbc70,
   0x289b7ec6, 0xeaa127fa, 0xd4ef3085, 0x04881d05,
   0xd9d4d039, 0xe6db99e5, 0x1fa27cf8, 0xc4ac5665,
   0xf4292244, 0x432aff97, 0xab9423a7, 0xfc93a039,
   0x655b59c3, 0x8f0ccc92, 0xffeff47d, 0x85845dd1,
   0x6fa87e4f, 0xfe2ce6e0, 0xa3014314, 0x4e0811a1,
   0xf7537e82, 0xbd3af235, 0x2ad7d2bb, 0xeb86d391]

/-- Little-endian byte representation of a number, fixed width. -/
def leBytes : Nat → Nat → List Nat
  | 0, _ => []
  | k + 1, v => v % 256 :: leBytes k (v / 256)

/-- MD5 padding: a `0x80` byte, zero bytes up to 56 modulo 64, then the
bit length as eight little-endian bytes. -/
def md5_pad (msg : List Nat) : List Nat :=
  msg ++ [128] ++ List.replicate ((119 - msg.length % 64) % 64) 0 ++
    leBytes 8 (msg.length * 8)

/-- Group bytes into little-endian 32-bit words. -/
def leWords : List Nat → List Nat
  | b0 :: b1 :: b2 :: b3 :: rest =>
      (b0 + b1 * 256 + b2 * 65536 + b3 * 16777216) :: leWords rest
  | _ => []

/-- One of the 64 MD5 rounds on state `(A, B, C, D)` for block words `M`. -/
def md5_step (M : List Nat) (st : Nat × Nat × Nat × Nat) (i : Nat) :
    Nat × Nat × Nat × Nat :=
  let A := st.1
  let B := st.2.1
  let C := st.2.2.1
  let D := st.2.2.2
  let F :=
    if i < 16 then Nat.lor (Nat.land B C) (Nat.land (not32 B) D)
    else if i < 32 then Nat.lor (Nat.land D B) (Nat.land (not32 D) C)
    else if i < 48 then Nat.xor B (Nat.xor C D)
    else Nat.xor C (Nat.lor B (not32 D))
  let g :=
    if i < 16 then i
    else if i < 32 then (5 * i + 1) % 16
    else if i < 48 then (3 * i + 5) % 16
    else 7 * i % 16
  let F2 := w32 (F + A + md5_K.getD i 0 + M.getD g 0)
  (D, w32 (B + rotl32 F2 (md5_s.getD i 0)), B, C)

/-- Process one 16-word block of MD5. -/
def md5_block (st : Nat × Nat × Nat × Nat) (M : List Nat) :
    Nat × Nat × Nat × Nat :=
  let r := (List.range 64).foldl (md5_step M) st
  (w32 (st.1 + r.1), w32 (st.2.1 + r.2.1),
   w32 (st.2.2.1 + r.2.2.1), w32 (st.2.2.2 + r.2.2.2))

/-- Fold MD5 over all 16-word blocks of a padded message. -/
def md5_process (st : Nat × Nat × Nat × Nat) : List Nat → Nat × Nat × Nat × Nat
  | w0 :: w1 :: w2 :: w3 :: w4 :: w5 :: w6 :: w7 ::
    w8 :: w9 :: w10 :: w11 :: w12 :: w13 :: w14 :: w15 :: rest =>
      md5_process
        (md5_block st
          [w0, w1, w2, w3, w4, w5, w6, w7, w8, w9, w10, w11, w12, w13, w14, w15])
        rest
  | _ => st

/-- MD5 digest (16 bytes) of a byte list. -/
def md5_bytes (msg : List Nat) : List Nat :=
  let r := md5_process (0x67452301, 0xefcdab89, 0x98badcfe, 0x10325476)
    (leWords (md5_pad msg))
  leBytes 4 r.1 ++ leBytes 4 r.2.1 ++ leBytes 4 r.2.2.1 ++ leBytes 4 r.2.2.2

/-- Lowercase hexadecimal digit character of a value below 16. -/
def hexChar (n : Nat) : Char :=
  if n < 10 then Char.ofNat (48 + n) else Char.ofNat (87 + n)

/-- Lowercase hexadecimal string of a byte list. -/
def bytesToHex (bs : List Nat) : String :=
  String.mk (bs.foldr (fun b acc => hexChar (b / 16) :: hexChar (b % 16) :: acc) [])

/-- Model of `hashlib.md5(x).hexdigest()`. -/
def md5_hexdigest (msg : List Nat) : String := bytesToHex (md5_bytes msg)

/-- Bytes of a Python string under `.encode()`; the strings hashed and
encoded in this repository are ASCII, where UTF-8 bytes coincide with the
code points. -/
def strBytes (s : String) : List Nat := s.toList.map Char.toNat

/-! ## payment.py — `PaymentProcessor`

The module-level stores `_transactions` and `_stored_cards` and the
methods `process_payment`, `process_refund`, `get_stored_card`,
`_validate_card`, `_tokenize_card`. Monetary amounts (Python floats that
are only stored, compared with zero for truthiness, and returned) are
modelled as rationals. -/

/-- Transaction dict appended to `_transactions` by `process_payment`. -/
structure Transaction where
  transaction_id : String := ""
  amount : ℚ := 0
  currency : String := "USD"
  status : String := ""
  card_token : String := ""
  card_number : String := ""
  card_last_four : String := ""
  card_expiry : String := ""
  cvv_provided : String := ""
  cardholder_name : String := ""
  billing_address : Option (List (String × String)) := none
  merchant_id : String := "MERCH_001"
  processed_at : Nat := 0
  ip_address : String := "captured_at_runtime"
deriving Repr, DecidableEq

/-- Card dict stored in `_stored_cards` by `process_payment`. -/
structure StoredCard where
  card_number : String
  expiry : String
  cvv : String
  cardholder_name : String
  stored_at : Nat
deriving Repr, DecidableEq

/-- The module-level stores of payment.py. -/
structure PaymentState where
  transactions : List Transaction := []
  stored_cards : List (String × StoredCard) := []
deriving Repr, DecidableEq

/-- Dict returned by `process_payment` (approval or decline). -/
structure PaymentResponse where
  status : String
  reason : Option String := none
  transaction_id : Option String := none
  amount : Option ℚ := none
  currency : Option String := none
  card_token : Option String := none
  receipt_url : Option String := none
deriving Repr, DecidableEq

/-- Dict returned by `process_refund` (refund or lookup error). -/
structure RefundResponse where
  status : String
  reason : Option String := none
  refund_id : Option String := none
  original_transaction : Option String := none
  refund_amount : Option ℚ := none
  card_number : Option String := none
  processed_at : Option Nat := none
deriving Repr, DecidableEq

/-- Model of `PaymentProcessor._validate_card`: strip spaces and dashes,
then require at least 13 characters, all digits. -/
def _validate_card (card_number : String) : Bool :=
  let cleaned := card_number.toList.filter (fun ch => ch != ' ' && ch != '-')
  decide (13 ≤ cleaned.length) && cleaned.all Char.isDigit

/-- Model of `PaymentProcessor._tokenize_card`: `"tok_"` plus the first
sixteen characters of the MD5 hex digest of the card number. -/
def _tokenize_card (card_number : String) : String :=
  "tok_" ++ (md5_hexdigest (strBytes card_number)).take 16

/-- Last four characters of a string (`card_number[-4:]` in the source). -/
def lastFour (s : String) : String :=
  String.mk (s.toList.drop (s.toList.length - 4))

/-- Model of `PaymentProcessor.process_payment`. The `datetime`-derived
part of the transaction id is modelled by the clock value `t`; the log
line written with `logger.info` is I/O outside the store model. -/
def process_payment (s : PaymentState) (card_number expiry cvv : String)
    (amount : ℚ) (currency : String) (cardholder_name : String)
    (billing_address : Option (List (String × String))) (t : Nat) :
    PaymentResponse × PaymentState :=
  if _validate_card card_number then
    let card_token := _tokenize_card card_number
    let txn : Transaction :=
      { transaction_id := "TXN_" ++ toString t ++ "_" ++ toString (s.transactions.length + 1)
        amount := amount
        currency := currency
        status := "approved"
        card_token := card_token
        card_number := card_number
        card_last_four := lastFour card_number
        card_expiry := expiry
        cvv_provided := cvv
        cardholder_name := cardholder_name
        billing_address := billing_address
        merchant_id := "MERCH_001"
        processed_at := t
        ip_address := "captured_at_runtime" }
    let stored : StoredCard :=
      { card_number := card_number, expiry := expiry, cvv := cvv,
        cardholder_name := cardholder_name, stored_at := t }
    ({ status := "approved"
       transaction_id := some txn.transaction_id
       amount := some amount
       currency := some currency
       card_token := some card_token
       receipt_url := some ("/receipts/" ++ txn.transaction_id) },
     { transactions := s.transactions ++ [txn]
       stored_cards := dictInsert card_token stored s.stored_cards })
  else
    ({ status := "declined", reason := some "Invalid card number" }, s)

/-- Model of `PaymentProcessor.process_refund`. `next(...)` takes the
first matching transaction; `amount or txn["amount"]` falls back to the
full original amount when `amount` is `None` or zero (falsy). -/
def process_refund (s : PaymentState) (transaction_id : String)
    (amount : Option ℚ) (t : Nat) : RefundResponse :=
  match s.transactions.find? (fun txn => txn.transaction_id == transaction_id) with
  | none => { status := "error", reason := some "Transaction not found" }
  | some txn =>
      let refund_amount :=
        match amount with
        | none => txn.amount
        | some a => if a = 0 then txn.amount else a
      { status := "completed"
        refund_id := some ("RFD_" ++ toString t)
        original_transaction := some transaction_id
        refund_amount := some refund_amount
        card_number := some txn.card_number
        processed_at := some t }

/-- Model of `PaymentProcessor.get_stored_card`; the miss case (the
source returns an error dict) is `none`. -/
def get_stored_card (s : PaymentState) (card_token : String) : Option StoredCard :=
  s.stored_cards.lookup card_token

/-! ## health.py — `HIPAAComplianceManager`

The module-level stores `_patient_records` and `_access_log` and the
methods `store_patient_record`, `get_patient_record`, `_encrypt_field`,
`_decrypt_field`. The SSN, the one field that flows through the codec, is
modelled at the byte level. In the source `get_patient_record` receives
the stored dict by reference, so writing `record["ssn_decrypted"]`
mutates the store; the model returns the updated store explicitly. -/

/-- Patient dict stored in `_patient_records`; `ssn` holds the
`_encrypt_field` output and `ssn_decrypted` is the key added in place by
`get_patient_record` (absent when `none`). -/
structure PatientRecord where
  patient_id : String := ""
  first_name : Option String := none
  last_name : Option String := none
  date_of_birth : Option String := none
  ssn : List Nat := []
  diagnosis_codes : List String := []
  medications : List String := []
  lab_results : List (String × String) := []
  physician_notes : String := ""
  insurance_id : Option String := none
  billing_info : List (String × String) := []
  mental_health_notes : String := ""
  substance_abuse_history : String := ""
  hiv_status : Option String := none
  genetic_data : List (String × String) := []
  created_at : Nat := 0
  last_modified : Nat := 0
  ssn_decrypted : Option (List Nat) := none
deriving Repr, DecidableEq

/-- Caller-supplied record dict of `store_patient_record`; field defaults
mirror the `record.get(...)` defaults of the source, and `ssn` is an
option because `record.get("ssn")` in the log line distinguishes a
missing key from an empty value. -/
structure PatientInput where
  first_name : Option String := none
  last_name : Option String := none
  date_of_birth : Option String := none
  ssn : Option (List Nat) := none
  diagnosis_codes : List String := []
  medications : List String := []
  lab_results : List (String × String) := []
  physician_notes : String := ""
  insurance_id : Option String := none
  billing_info : List (String × String) := []
  mental_health_notes : String := ""
  substance_abuse_history : String := ""
  hiv_status : Option String := none
  genetic_data : List (String × String) := []
deriving Repr, DecidableEq

/-- Entry appended to `_access_log`; the `store` and `read` entry shapes
share this type, absent keys being `none`. -/
structure PhiAccessEntry where
  action : String
  patient_id : String
  patient_name : Option String := none
  ssn : Option (List Nat) := none
  diagnosis_codes : Option (List String) := none
  requested_by : Option String := none
  fields_accessed : Option (List String) := none
  timestamp : Nat
  accessed_by : Option String := none
deriving Repr, DecidableEq

/-- The module-level stores of health.py. -/
structure HealthState where
  patient_records : List (String × PatientRecord) := []
  access_log : List PhiAccessEntry := []
deriving Repr, DecidableEq

/-- Dict returned by `store_patient_record`. -/
structure StoreResult where
  status : String
  patient_id : String
  encrypted : Bool
deriving Repr, DecidableEq

/-- Model of `HIPAAComplianceManager._encrypt_field`: empty strings pass
through, anything else is base64 encoded. -/
def _encrypt_field (value : List Nat) : List Nat :=
  if value = [] then [] else b64encode value

/-- Model of `HIPAAComplianceManager._decrypt_field`. -/
def _decrypt_field (encoded : List Nat) : List Nat :=
  if encoded = [] then [] else b64decode encoded

/-- Model of `HIPAAComplianceManager.store_patient_record`; the
`logger.info` line is I/O outside the store model. The access-log entry
records the plain `record.get("ssn")` while the stored record holds the
encoded one. -/
def store_patient_record (s : HealthState) (patient_id : String)
    (record : PatientInput) (t : Nat) : StoreResult × HealthState :=
  let encrypted_record : PatientRecord :=
    { patient_id := patient_id
      first_name := record.first_name
      last_name := record.last_name
      date_of_birth := record.date_of_birth
      ssn := _encrypt_field (record.ssn.getD [])
      diagnosis_codes := record.diagnosis_codes
      medications := record.medications
      lab_results := record.lab_results
      physician_notes := record.physician_notes
      insurance_id := record.insurance_id
      billing_info := record.billing_info
      mental_health_notes := record.mental_health_notes
      substance_abuse_history := record.substance_abuse_history
      hiv_status := record.hiv_status
      genetic_data := record.genetic_data
      created_at := t
      last_modified := t }
  let log_entry : PhiAccessEntry :=
    { action := "store"
      patient_id := patient_id
      patient_name := some (record.first_name.getD "None" ++ " " ++
        record.last_name.getD "None")
      ssn := record.ssn
      diagnosis_codes := some record.diagnosis_codes
      timestamp := t
      accessed_by := some "system" }
  ({ status := "stored", patient_id := patient_id, encrypted := true },
   { patient_records := dictInsert patient_id encrypted_record s.patient_records
     access_log := s.access_log ++ [log_entry] })

/-- Python dict keys of a stored record, as listed by
`list(record.keys())`: the seventeen keys written by
`store_patient_record`, plus `ssn_decrypted` once a read has added it. -/
def recordKeys (r : PatientRecord) : List String :=
  ["patient_id", "first_name", "last_name", "date_of_birth", "ssn",
   "diagnosis_codes", "medications", "lab_results", "physician_notes",
   "insurance_id", "billing_info", "mental_health_notes",
   "substance_abuse_history", "hiv_status", "genetic_data", "created_at",
   "last_modified"] ++ (if r.ssn_decrypted.isSome then ["ssn_decrypted"] else [])

/-- Model of `HIPAAComplianceManager.get_patient_record`. The source
appends the access-log entry, then executes
`record["ssn_decrypted"] = self._decrypt_field(record["ssn"])` on the
dict held in `_patient_records`, so both the returned record and the
store carry the decoded SSN afterwards. `requesting_user or "anonymous"`
is falsy-aware. -/
def get_patient_record (s : HealthState) (patient_id : String)
    (requesting_user : Option String) (t : Nat) :
    Option PatientRecord × HealthState :=
  match s.patient_records.lookup patient_id with
  | none => (none, s)
  | some record =>
      let log_entry : PhiAccessEntry :=
        { action := "read"
          patient_id := patient_id
          requested_by := some
            (match requesting_user with
             | none => "anonymous"
             | some u => if u = "" then "anonymous" else u)
          fields_accessed := some (recordKeys record)
          timestamp := t }
      let mutated : PatientRecord :=
        if record.ssn ≠ [] then
          { record with ssn_decrypted := some (_decrypt_field record.ssn) }
        else record
      (some mutated,
       { patient_records := dictInsert patient_id mutated s.patient_records
         access_log := s.access_log ++ [log_entry] })

/-! ## Codec lemmas -/

theorem b64dec_b64char : ∀ n, n < 64 → b64dec (b64char n) = n := by decide

theorem b64char_ne_pad : ∀ n, n < 64 → b64char n ≠ b64pad := by decide

/-- Decoding inverts encoding on every byte list. -/
theorem b64decode_b64encode : ∀ l : List Nat, IsBytes l → b64decode (b64encode l) = l
  | [], _ => rfl
  | [a], h => by
    have ha : a < 256 := h a (by simp)
    have h1 : a / 4 < 64 := by omega
    have h2 : a % 4 * 16 < 64 := by omega
    simp only [b64encode, b64decode, eq_self_iff_true, if_true,
      b64dec_b64char _ h1, b64dec_b64char _ h2, List.cons.injEq, and_true]
    omega
  | [a, b], h => by
    have ha : a < 256 := h a (by simp)
    have hb : b < 256 := h b (by simp)
    have h1 : a / 4 < 64 := by omega
    have h2 : a % 4 * 16 + b / 16 < 64 := by omega
    have h3 : b % 16 * 4 < 64 := by omega
    simp only [b64encode, b64decode, if_neg (b64char_ne_pad _ h3), eq_self_iff_true,
      if_true, b64dec_b64char _ h1, b64dec_b64char _ h2, b64dec_b64char _ h3,
      List.cons.injEq, and_true]
    omega
  | a :: b :: c :: rest, h => by
    have ha : a < 256 := h a (by simp)
    have hb : b < 256 := h b (by simp)
    have hc : c < 256 := h c (by simp)
    have h1 : a / 4 < 64 := by omega
    have h2 : a % 4 * 16 + b / 16 < 64 := by omega
    have h3 : b % 16 * 4 + c / 64 < 64 := by omega
    have h4 : c % 64 < 64 := by omega
    have ih : b64decode (b64encode rest) = rest :=
      b64decode_b64encode rest (fun x hx => h x (by simp [hx]))
    simp only [b64encode, b64decode, if_neg (b64char_ne_pad _ h3),
      if_neg (b64char_ne_pad _ h4),
      b64dec_b64char _ h1, b64dec_b64char _ h2, b64dec_b64char _ h3,
      b64dec_b64char _ h4, ih, List.cons.injEq, and_true]
    omega

/-- Encoding a non-empty byte list never yields the empty list. -/
theorem b64encode_ne_nil : ∀ l : List Nat, l ≠ [] → b64encode l ≠ [] := by
  intro l hl
  cases l with
  | nil => exact absurd rfl hl
  | cons a t =>
    cases t with
    | nil => simp [b64encode]
    | cons b t2 =>
      cases t2 with
      | nil => simp [b64encode]
      | cons c r => simp [b64encode]

/-- Looking up the key just written by `dictInsert` returns the new value. -/
theorem lookup_dictInsert {α β : Type} [BEq α] [LawfulBEq α] (k : α) (v : β)
    (m : List (α × β)) : (dictInsert k v m).lookup k = some v := by
  simp [dictInsert, List.lookup]

/-! ## Claims -/

/-- Claim C1. The claim states consent checking is fail-closed:
`check_consent(S, P)` must return `false` for every subject and purpose
never granted, including unknown subjects and purposes such as
"marketing". On an empty registry (no consent ever recorded) the source
returns `true` both for the whitelisted purpose "marketing" and for a
purpose with no policy-table entry, because the function ends in an
unconditional `return True`. -/
theorem check_consent_fail_open :
    check_consent {} 7 "marketing" = true ∧
    check_consent {} 7 "purpose_never_granted" = true :=
  ⟨rfl, rfl⟩

/-- Claim C2. The claim states authorization defaults to deny with one
`denied` audit entry per denial; the source's `check_access_policy`
returns `true` for a role with no policy entry (its final statement is
`return True`) and contains no code path that appends any audit entry. -/
theorem check_access_policy_default_allow :
    check_access_policy "anonymous" "read_phi" = true :=
  rfl

/-- Claim C3. The claim states the raw payment instrument is never
persisted and `get_stored_instrument(T)` never returns the full card
number; the source stores the full card number and CVV in both
`_stored_cards` and `_transactions`, and `get_stored_card` on the
token returns the full card number. -/
theorem stored_instrument_contains_raw_card :
    ((process_payment {} "4111111111111111" "12/26" "123" 10 "USD" "Alice" none 0).2.stored_cards.map
        (fun p => (p.2.card_number, p.2.cvv)) = [("4111111111111111", "123")]) ∧
    ((process_payment {} "4111111111111111" "12/26" "123" 10 "USD" "Alice" none 0).2.transactions.map
        (fun txn => (txn.card_number, txn.cvv_provided)) = [("4111111111111111", "123")]) ∧
    ((get_stored_card (process_payment {} "4111111111111111" "12/26" "123" 10 "USD" "Alice" none 0).2
        (_tokenize_card "4111111111111111")).map (fun c => c.card_number) =
      some "4111111111111111") := by
  have hv : _validate_card "4111111111111111" = true := by decide
  refine ⟨?_, ?_, ?_⟩ <;>
    simp [process_payment, hv, get_stored_card, lookup_dictInsert, dictInsert]

/-- Claim C4. The claim states audit/processing log entries never contain
raw secrets; the source's `log_access` copies the session token into the
entry, `handle_data_deletion_request` embeds the subject's email, and
`store_patient_record` writes the plain SSN into the access log. -/
theorem audit_log_entries_embed_secrets :
    ((log_access [] 1 "patient_records" "read"
        (some [("auth_token", "sess_abc123")]) 0).map
        (fun e => e.session_token) = [some "sess_abc123"]) ∧
    (((handle_data_deletion_request {} 5 0).2.data_processing_log.map
        (fun e => e.user_email)) = ["user_5@company.com"]) ∧
    (((store_patient_record {} "p1" { ssn := some [49, 50, 51] } 0).2.access_log.map
        (fun e => e.ssn)) = [some [49, 50, 51]]) := by
  refine ⟨?_, ?_, ?_⟩ <;> rfl

/-- Claim C5. The claim states `should_purge(category, age_days)` is true
exactly when `age_days ≥ retention_days` and in particular is not
unconditionally false; the source's `should_purge` is `return False`, so
it returns `false` even for the category `session_tokens` (retention 365
days) at age 400 days. -/
theorem should_purge_never_true :
    should_purge "session_tokens" 400 = false ∧
    get_retention_period "session_tokens" = 365 ∧
    get_retention_period "session_tokens" ≤ 400 := by
  refine ⟨rfl, by decide, by decide⟩

/-- Claim C6. The claim states `handle_deletion` is idempotent: a second
call returns the same terminal result and appends one no-op audit entry.
The source reprocesses the request from scratch on every call: the second
result differs from the first (its timestamp field), and the entry
appended by the second call is a full `deletion_request` entry embedding
the subject's email, not a no-op entry. -/
theorem handle_deletion_not_idempotent :
    ((handle_data_deletion_request ((handle_data_deletion_request {} 9 0).2) 9 1).1 ≠
      (handle_data_deletion_request {} 9 0).1) ∧
    ((handle_data_deletion_request ((handle_data_deletion_request {} 9 0).2) 9 1).2.data_processing_log.map
        (fun e => e.user_email) = ["user_9@company.com", "user_9@company.com"]) := by
  exact ⟨by decide, rfl⟩

/-- Claim C7. Field protection round-trips: for every non-empty byte
string `v`, decoding the protected value returns `v` (both for
`encrypt_pii`/`decrypt_pii` and for `_encrypt_field`/`_decrypt_field`),
and protection of distinct values yields distinct outputs (here exactly,
which implies the claim's "with overwhelming probability"). -/
theorem protect_unprotect_roundtrip :
    ∀ v : List Nat, IsBytes v → v ≠ [] →
      (decrypt_pii (encrypt_pii v) = v ∧ _decrypt_field (_encrypt_field v) = v) ∧
      ∀ w : List Nat, IsBytes w → v ≠ w →
        encrypt_pii v ≠ encrypt_pii w ∧ _encrypt_field v ≠ _encrypt_field w := by
  intro v hv hvne
  have hb : b64encode v ≠ [] := b64encode_ne_nil v hvne
  refine ⟨⟨b64decode_b64encode v hv, ?_⟩, ?_⟩
  · simp only [_encrypt_field, _decrypt_field, if_neg hvne, if_neg hb]
    exact b64decode_b64encode v hv
  · intro w hw hne
    constructor
    · intro he
      simp only [encrypt_pii] at he
      exact hne (by rw [← b64decode_b64encode v hv, he, b64decode_b64encode w hw])
    · by_cases hwe : w = []
      · subst hwe
        simp only [_encrypt_field, if_neg hvne, if_pos rfl]
        exact hb
      · simp only [_encrypt_field, if_neg hvne, if_neg hwe]
        intro he
        exact hne (by rw [← b64decode_b64encode v hv, he, b64decode_b64encode w hw])

/-- Witness for claim C7 at the concrete bytes "hi" and "hj". -/
theorem protect_unprotect_roundtrip_witness :
    decrypt_pii (encrypt_pii [104, 105]) = [104, 105] ∧
    encrypt_pii [104, 105] ≠ encrypt_pii [104, 106] :=
  ⟨(protect_unprotect_roundtrip [104, 105] (by decide) (by decide)).1.1,
   ((protect_unprotect_roundtrip [104, 105] (by decide) (by decide)).2 [104, 106]
      (by decide) (by decide)).1⟩

/-- Claim C8. The claim states a charge with non-positive amount is
declined and records no approved transaction; the source validates only
the card format, so charges of amount `0` and `-5` are approved and an
approved transaction is appended to `_transactions`. -/
theorem nonpositive_amount_charge_approved :
    ((process_payment {} "4111111111111111" "12/26" "123" 0 "USD" "Alice" none 0).1.status =
      "approved") ∧
    ((process_payment {} "4111111111111111" "12/26" "123" 0 "USD" "Alice" none 0).2.transactions.map
        (fun txn => txn.status) = ["approved"]) ∧
    ((process_payment {} "4111111111111111" "12/26" "123" (-5) "USD" "Alice" none 0).1.status =
      "approved") := by
  have hv : _validate_card "4111111111111111" = true := by decide
  refine ⟨?_, ?_, ?_⟩ <;> simp [process_payment, hv]

/-- Claim C9. Reading a patient record mutates the store: when the stored
record has a non-empty `ssn`, `get_patient_record` writes the decoded SSN
into the stored record under `ssn_decrypted`, and a subsequent read
returns the record with the plaintext SSN still present. -/
theorem get_patient_record_persists_plaintext_ssn :
    ∀ (s : HealthState) (pid : String) (r : PatientRecord) (u : Option String) (t t2 : Nat),
      s.patient_records.lookup pid = some r → r.ssn ≠ [] →
      ((get_patient_record s pid u t).2.patient_records.lookup pid =
        some { r with ssn_decrypted := some (_decrypt_field r.ssn) }) ∧
      ((get_patient_record (get_patient_record s pid u t).2 pid u t2).1.map
        (fun rec => rec.ssn_decrypted) = some (some (_decrypt_field r.ssn))) := by
  intro s pid r u t t2 hlook hssn
  simp [get_patient_record, hlook, if_pos hssn, lookup_dictInsert]

/-- Witness for claim C9: a store holding one record whose encoded SSN is
the base64 bytes of "123". -/
theorem get_patient_record_persists_plaintext_ssn_witness :
    ((get_patient_record
        { patient_records := [("p1", { patient_id := "p1", ssn := [77, 84, 73, 122] })] }
        "p1" none 0).2.patient_records.lookup "p1" =
      some { patient_id := "p1", ssn := [77, 84, 73, 122],
             ssn_decrypted := some (_decrypt_field [77, 84, 73, 122]) }) ∧
    ((get_patient_record
        (get_patient_record
          { patient_records := [("p1", { patient_id := "p1", ssn := [77, 84, 73, 122] })] }
          "p1" none 0).2 "p1" none 1).1.map
        (fun rec => rec.ssn_decrypted) = some (some (_decrypt_field [77, 84, 73, 122]))) :=
  get_patient_record_persists_plaintext_ssn
    { patient_records := [("p1", { patient_id := "p1", ssn := [77, 84, 73, 122] })] }
    "p1" { patient_id := "p1", ssn := [77, 84, 73, 122] } none 0 1 (by decide) (by decide)

/-- Claim C10. A refund request of amount zero refunds the full original
amount: for the first recorded transaction matching the id, both
`process_refund(id, 0)` and `process_refund(id, None)` complete with the
transaction's full amount, because `amount or txn["amount"]` treats zero
as absent. -/
theorem refund_zero_amount_refunds_full :
    ∀ (s : PaymentState) (tid : String) (txn : Transaction) (t : Nat),
      s.transactions.find? (fun x => x.transaction_id == tid) = some txn →
      ((process_refund s tid (some 0) t).status = "completed" ∧
       (process_refund s tid (some 0) t).refund_amount = some txn.amount ∧
       (process_refund s tid none t).refund_amount = some txn.amount) := by
  intro s tid txn t hfind
  simp [process_refund, hfind]

/-- Witness for claim C10 on a ledger holding one transaction of amount 10. -/
theorem refund_zero_amount_refunds_full_witness :
    (process_refund { transactions := [{ transaction_id := "TXN_0_1", amount := 10 }] }
        "TXN_0_1" (some 0) 5).refund_amount = some 10 :=
  (refund_zero_amount_refunds_full
    { transactions := [{ transaction_id := "TXN_0_1", amount := 10 }] } "TXN_0_1"
    { transaction_id := "TXN_0_1", amount := 10 } 5 (by decide)).2.1

end Demo
